import Mathlib

/-!
Shallow embedding of the py_gamma_sdk client library
(src/py_gamma_sdk/client.py) and proofs about its behavior.

The remote HTTP transport (httpx) and the URL parser (urllib.parse.urlparse)
are external collaborators, out of scope per the design document; they are
represented here by an oracle `server : Request → TransportResult` giving the
transport-level outcome of each request, and by taking the parsed URL path
component as the input of slug extraction.

Python values decoded from JSON bodies are represented by the inductive
`JsonVal`; a bare text body (the non-JSON branch of `_request`) is represented
as `JsonVal.str` of the stripped text, so that the dynamic dispatch on the
decoded value (`isinstance(data, list)`, `.get`, keyword expansion) can be
modelled faithfully.
-/

set_option autoImplicit false

namespace PG

/-- A decoded Python value as returned by the transport layer: either a parsed
JSON document or (via `JsonVal.str`) the stripped text of a non-JSON body. -/
inductive JsonVal where
  | null
  | bool (b : Bool)
  | num (n : Int)
  | str (s : String)
  | arr (elems : List JsonVal)
  | obj (fields : List (String × JsonVal))

/-- Modelled from the spec: exceptions.py is not under src/. The error
taxonomy of section 7: NotFoundError (HTTP 404), APIError (other non-2xx or
transport-level failures, carries status code and raw body when available),
ValidationError (unparseable URL given to resolve_url), all under a common
ancestor GammaError, rendered as one inductive with three constructors. -/
inductive GammaError where
  | notFoundError (msg : String) (status : Nat)
  | apiError (msg : String) (status : Option Nat) (body : Option String)
  | validationError (msg : String)

/-- A Python-level exception as observable by a `try`/`except Exception`
block: either one of the SDK's typed errors or a dynamic type error raised
while decoding a response into an entity record. -/
inductive PyError where
  | gamma (e : GammaError)
  | typeError (msg : String)

/-- The HTTP response the external transport hands back: status code,
content-type header, raw body text, and the result of attempting to parse the
body as JSON (`none` models a malformed body, where `response.json()` would
raise). -/
structure HttpResponse where
  status : Nat
  contentType : String
  text : String
  jsonBody : Option JsonVal

/-- Outcome of one network attempt by the external transport: an HTTP
response, or a transport-level failure (DNS, connection reset, ...). -/
inductive TransportResult where
  | response (r : HttpResponse)
  | failure (msg : String)

/-- One HTTP request as issued by the client: method, endpoint path, and
query parameters. -/
structure Request where
  method : String
  endpoint : String
  params : List (String × String)

/-- Whether `needle` occurs at the start of `hay` (list-of-characters form of
Python's startswith, used to build the `in` containment test below). -/
def isStart : List Char → List Char → Bool
  | [], _ => true
  | _ :: _, [] => false
  | a :: as, b :: bs => a == b && isStart as bs

/-- Python's substring containment test `needle in hay`. -/
def hasSub (needle : List Char) : List Char → Bool
  | [] => isStart needle []
  | c :: t => isStart needle (c :: t) || hasSub needle t

/-- Python's `s.strip(c)` for a one-character argument: remove every leading
and trailing occurrence of `c`. -/
def pyStrip (c : Char) (s : List Char) : List Char :=
  ((s.dropWhile (· == c)).reverse.dropWhile (· == c)).reverse

/-- String form of `pyStrip`. -/
def pyStripStr (c : Char) (s : String) : String :=
  String.mk (pyStrip c s.toList)

/-- Python's `s.split("/")`: split on every slash, keeping empty pieces;
the empty string yields one empty piece. -/
def splitSlash : List Char → List (List Char)
  | [] => [[]]
  | c :: rest =>
    if c == '/' then [] :: splitSlash rest
    else
      match splitSlash rest with
      | [] => [[c]]
      | h :: t => (c :: h) :: t

/-- GammaClient._request (client.py lines 201-218): a 404 status raises
NotFoundError; any other non-2xx status raises the httpx status error, which
is rewrapped as a GammaAPIError carrying the status code and body text; on
success a JSON content-type returns the parsed body (a malformed body makes
response.json() raise, wrapped as a generic APIError), and any other
content-type returns the body text with surrounding quote characters
stripped; a transport-level failure is wrapped as a generic APIError. -/
def client_request (endpoint : String) (t : TransportResult) : Except GammaError JsonVal :=
  match t with
  | .failure msg => .error (.apiError ("Unexpected Error: " ++ msg) none none)
  | .response r =>
    if r.status == 404 then
      .error (.notFoundError ("Resource not found: " ++ endpoint) 404)
    else if 200 ≤ r.status ∧ r.status < 300 then
      if hasSub "application/json".toList r.contentType.toList then
        match r.jsonBody with
        | some v => .ok v
        | none => .error (.apiError "Unexpected Error: invalid JSON body" none none)
      else
        .ok (.str (pyStripStr '"' r.text))
    else
      .error (.apiError ("API Error: " ++ toString r.status) (some r.status) (some r.text))

/-- Modelled from the spec: models.py is not under src/. Entities are plain
immutable records populated by keyword/field mapping from JSON objects,
tolerating unknown or absent fields; each is rendered as a record holding the
field mapping it was constructed from. -/
structure Market where
  fields : List (String × JsonVal)

/-- Modelled from the spec: see `Market`. -/
structure Event where
  fields : List (String × JsonVal)

/-- Modelled from the spec: see `Market`. -/
structure Tag where
  fields : List (String × JsonVal)

/-- Modelled from the spec: see `Market`. -/
structure Team where
  fields : List (String × JsonVal)

/-- Modelled from the spec: see `Market`. -/
structure SportMetadata where
  fields : List (String × JsonVal)

/-- Modelled from the spec: see `Market`. -/
structure Series where
  fields : List (String × JsonVal)

/-- Modelled from the spec: see `Market`. -/
structure Comment where
  fields : List (String × JsonVal)

/-- Modelled from the spec: see `Market`. -/
structure Profile where
  fields : List (String × JsonVal)

/-- Python keyword expansion `Cls(**data)`: requires `data` to be a mapping,
raising a TypeError otherwise. -/
def kwargsOf (name : String) (v : JsonVal) : Except PyError (List (String × JsonVal)) :=
  match v with
  | .obj fs => .ok fs
  | _ => .error (.typeError (name ++ " keyword expansion needs a mapping"))

/-- Market(**data). -/
def Market.decode (v : JsonVal) : Except PyError Market :=
  (kwargsOf "Market" v).map Market.mk

/-- Event(**data). -/
def Event.decode (v : JsonVal) : Except PyError Event :=
  (kwargsOf "Event" v).map Event.mk

/-- Tag(**data). -/
def Tag.decode (v : JsonVal) : Except PyError Tag :=
  (kwargsOf "Tag" v).map Tag.mk

/-- Team(**data). -/
def Team.decode (v : JsonVal) : Except PyError Team :=
  (kwargsOf "Team" v).map Team.mk

/-- SportMetadata(**data). -/
def SportMetadata.decode (v : JsonVal) : Except PyError SportMetadata :=
  (kwargsOf "SportMetadata" v).map SportMetadata.mk

/-- Series(**data). -/
def Series.decode (v : JsonVal) : Except PyError Series :=
  (kwargsOf "Series" v).map Series.mk

/-- Comment(**data). -/
def Comment.decode (v : JsonVal) : Except PyError Comment :=
  (kwargsOf "Comment" v).map Comment.mk

/-- Profile(**data). -/
def Profile.decode (v : JsonVal) : Except PyError Profile :=
  (kwargsOf "Profile" v).map Profile.mk

/-- A Python list comprehension `[Cls(**item) for item in data]`: `data` must
be a sequence of mappings; any non-sequence response makes the iteration (or
the first keyword expansion) raise. -/
def decodeEach {α : Type} (dec : JsonVal → Except PyError α) (v : JsonVal) :
    Except PyError (List α) :=
  match v with
  | .arr l => l.mapM dec
  | _ => .error (.typeError "response is not a sequence of mappings")

/-- The value stored under a named field of a JSON object, when present. -/
def jsonField (fs : List (String × JsonVal)) (key : String) : Option JsonVal :=
  (fs.find? (fun p => p.fst == key)).map Prod.snd

/-- Python's `data.get(key, default)`: requires a mapping, looks up the key,
falls back to the default. -/
def pyDictGet (v : JsonVal) (key : String) (dflt : JsonVal) : Except PyError JsonVal :=
  match v with
  | .obj fs => .ok ((jsonField fs key).getD dflt)
  | _ => .error (.typeError "response object has no attribute get")

/-- Python dict assignment `ps[k] = v` on a keyword mapping: replace the value
of an existing key in place, or append the new pair. -/
def pySetItem : List (String × String) → String → String → List (String × String)
  | [], k, v => [(k, v)]
  | p :: rest, k, v =>
    if p.fst == k then (k, v) :: rest else p :: pySetItem rest k v

/-- Lookup of a query-parameter key in a keyword mapping. -/
def lookupKey (ps : List (String × String)) (k : String) : Option String :=
  (ps.find? (fun p => p.fst == k)).map Prod.snd

/-- The decoding step of MarketsClient.get_by_slug (client.py lines 131-133):
a list response yields its first element as a Market, or None when empty; any
other response is decoded directly as a Market. -/
def market_slug_decode (data : JsonVal) : Except PyError (Option Market) :=
  match data with
  | .arr l =>
    match l with
    | [] => .ok none
    | x :: _ => (Market.decode x).map some
  | _ => (Market.decode data).map some

/-- SportsClient.list_teams. -/
def sports_list_teams (server : Request → TransportResult)
    (params : List (String × String)) : Except PyError (List Team) :=
  match client_request "/teams" (server ⟨"GET", "/teams", params⟩) with
  | .error e => .error (.gamma e)
  | .ok data => decodeEach Team.decode data

/-- SportsClient.get_metadata. -/
def sports_get_metadata (server : Request → TransportResult) :
    Except PyError (List SportMetadata) :=
  match client_request "/sports" (server ⟨"GET", "/sports", []⟩) with
  | .error e => .error (.gamma e)
  | .ok data => decodeEach SportMetadata.decode data

/-- SportsClient.get_market_types (client.py lines 42-49). -/
def sports_get_market_types (server : Request → TransportResult) :
    Except PyError JsonVal :=
  match client_request "/sports/market-types"
      (server ⟨"GET", "/sports/market-types", []⟩) with
  | .error e => .error (.gamma e)
  | .ok data => pyDictGet data "marketTypes" (.arr [])

/-- TagsClient.list. -/
def tags_list (server : Request → TransportResult)
    (params : List (String × String)) : Except PyError (List Tag) :=
  match client_request "/tags" (server ⟨"GET", "/tags", params⟩) with
  | .error e => .error (.gamma e)
  | .ok data => decodeEach Tag.decode data

/-- TagsClient.get_by_id. -/
def tags_get_by_id (server : Request → TransportResult) (tag_id : String) :
    Except PyError Tag :=
  match client_request ("/tags/" ++ tag_id)
      (server ⟨"GET", "/tags/" ++ tag_id, []⟩) with
  | .error e => .error (.gamma e)
  | .ok data => Tag.decode data

/-- TagsClient.get_by_slug. -/
def tags_get_by_slug (server : Request → TransportResult) (slug : String) :
    Except PyError Tag :=
  match client_request ("/tags/slug/" ++ slug)
      (server ⟨"GET", "/tags/slug/" ++ slug, []⟩) with
  | .error e => .error (.gamma e)
  | .ok data => Tag.decode data

/-- TagsClient.get_related_by_id: returns the raw decoded response. -/
def tags_get_related_by_id (server : Request → TransportResult) (tag_id : String) :
    Except PyError JsonVal :=
  match client_request ("/tags-related-tag-id/" ++ tag_id)
      (server ⟨"GET", "/tags-related-tag-id/" ++ tag_id, []⟩) with
  | .error e => .error (.gamma e)
  | .ok data => .ok data

/-- TagsClient.get_related_by_slug: returns the raw decoded response. -/
def tags_get_related_by_slug (server : Request → TransportResult) (slug : String) :
    Except PyError JsonVal :=
  match client_request ("/tags-related-tag-slug/" ++ slug)
      (server ⟨"GET", "/tags-related-tag-slug/" ++ slug, []⟩) with
  | .error e => .error (.gamma e)
  | .ok data => .ok data

/-- TagsClient.get_tags_related_to_id. -/
def tags_get_tags_related_to_id (server : Request → TransportResult)
    (tag_id : String) : Except PyError (List Tag) :=
  match client_request ("/tags/" ++ tag_id ++ "/related")
      (server ⟨"GET", "/tags/" ++ tag_id ++ "/related", []⟩) with
  | .error e => .error (.gamma e)
  | .ok data => decodeEach Tag.decode data

/-- TagsClient.get_tags_related_to_slug. -/
def tags_get_tags_related_to_slug (server : Request → TransportResult)
    (slug : String) : Except PyError (List Tag) :=
  match client_request ("/tags/slug/" ++ slug ++ "/related")
      (server ⟨"GET", "/tags/slug/" ++ slug ++ "/related", []⟩) with
  | .error e => .error (.gamma e)
  | .ok data => decodeEach Tag.decode data

/-- EventsClient.list. -/
def events_list (server : Request → TransportResult)
    (params : List (String × String)) : Except PyError (List Event) :=
  match client_request "/events" (server ⟨"GET", "/events", params⟩) with
  | .error e => .error (.gamma e)
  | .ok data => decodeEach Event.decode data

/-- EventsClient.get_by_id. -/
def events_get_by_id (server : Request → TransportResult) (event_id : String) :
    Except PyError Event :=
  match client_request ("/events/" ++ event_id)
      (server ⟨"GET", "/events/" ++ event_id, []⟩) with
  | .error e => .error (.gamma e)
  | .ok data => Event.decode data

/-- EventsClient.get_tags. -/
def events_get_tags (server : Request → TransportResult) (event_id : String) :
    Except PyError (List Tag) :=
  match client_request ("/events/" ++ event_id ++ "/tags")
      (server ⟨"GET", "/events/" ++ event_id ++ "/tags", []⟩) with
  | .error e => .error (.gamma e)
  | .ok data => decodeEach Tag.decode data

/-- EventsClient.get_by_slug (client.py lines 101-104). -/
def events_get_by_slug (server : Request → TransportResult) (slug : String) :
    Except PyError Event :=
  match client_request ("/events/slug/" ++ slug)
      (server ⟨"GET", "/events/slug/" ++ slug, []⟩) with
  | .error e => .error (.gamma e)
  | .ok data => Event.decode data

/-- MarketsClient.list. -/
def markets_list (server : Request → TransportResult)
    (params : List (String × String)) : Except PyError (List Market) :=
  match client_request "/markets" (server ⟨"GET", "/markets", params⟩) with
  | .error e => .error (.gamma e)
  | .ok data => decodeEach Market.decode data

/-- MarketsClient.get_by_id. -/
def markets_get_by_id (server : Request → TransportResult) (market_id : String) :
    Except PyError Market :=
  match client_request ("/markets/" ++ market_id)
      (server ⟨"GET", "/markets/" ++ market_id, []⟩) with
  | .error e => .error (.gamma e)
  | .ok data => Market.decode data

/-- MarketsClient.get_tags. -/
def markets_get_tags (server : Request → TransportResult) (market_id : String) :
    Except PyError (List Tag) :=
  match client_request ("/markets/" ++ market_id ++ "/tags")
      (server ⟨"GET", "/markets/" ++ market_id ++ "/tags", []⟩) with
  | .error e => .error (.gamma e)
  | .ok data => decodeEach Tag.decode data

/-- MarketsClient.get_by_slug (client.py lines 128-133). -/
def markets_get_by_slug (server : Request → TransportResult) (slug : String) :
    Except PyError (Option Market) :=
  match client_request ("/markets/slug/" ++ slug)
      (server ⟨"GET", "/markets/slug/" ++ slug, []⟩) with
  | .error e => .error (.gamma e)
  | .ok data => market_slug_decode data

/-- SeriesClient.list. -/
def series_list (server : Request → TransportResult)
    (params : List (String × String)) : Except PyError (List Series) :=
  match client_request "/series" (server ⟨"GET", "/series", params⟩) with
  | .error e => .error (.gamma e)
  | .ok data => decodeEach Series.decode data

/-- SeriesClient.get_by_id. -/
def series_get_by_id (server : Request → TransportResult) (series_id : String) :
    Except PyError Series :=
  match client_request ("/series/" ++ series_id)
      (server ⟨"GET", "/series/" ++ series_id, []⟩) with
  | .error e => .error (.gamma e)
  | .ok data => Series.decode data

/-- CommentsClient.list. -/
def comments_list (server : Request → TransportResult)
    (params : List (String × String)) : Except PyError (List Comment) :=
  match client_request "/comments" (server ⟨"GET", "/comments", params⟩) with
  | .error e => .error (.gamma e)
  | .ok data => decodeEach Comment.decode data

/-- CommentsClient.get_by_id. -/
def comments_get_by_id (server : Request → TransportResult) (comment_id : String) :
    Except PyError Comment :=
  match client_request ("/comments/" ++ comment_id)
      (server ⟨"GET", "/comments/" ++ comment_id, []⟩) with
  | .error e => .error (.gamma e)
  | .ok data => Comment.decode data

/-- CommentsClient.get_by_user. -/
def comments_get_by_user (server : Request → TransportResult) (address : String) :
    Except PyError (List Comment) :=
  match client_request ("/comments/user/" ++ address)
      (server ⟨"GET", "/comments/user/" ++ address, []⟩) with
  | .error e => .error (.gamma e)
  | .ok data => decodeEach Comment.decode data

/-- ProfilesClient.get_by_address. -/
def profiles_get_by_address (server : Request → TransportResult) (address : String) :
    Except PyError Profile :=
  match client_request ("/profiles/" ++ address)
      (server ⟨"GET", "/profiles/" ++ address, []⟩) with
  | .error e => .error (.gamma e)
  | .ok data => Profile.decode data

/-- GammaClient.get_status (client.py lines 220-221). -/
def get_status (server : Request → TransportResult) : Except GammaError JsonVal :=
  client_request "/status" (server ⟨"GET", "/status", []⟩)

/-- The single request that GammaClient.search issues: a GET to /search with
the query text assigned into the caller's filter mapping under key "q". -/
def search_request (query : String) (params : List (String × String)) : Request :=
  ⟨"GET", "/search", pySetItem params "q" query⟩

/-- GammaClient.search (client.py lines 223-225). -/
def search (server : Request → TransportResult) (query : String)
    (params : List (String × String)) : Except GammaError JsonVal :=
  client_request "/search" (server (search_request query params))

/-- GammaClient._extract_slug_from_url (client.py lines 249-257). The URL
parser urlparse is an external collaborator; the embedding takes the parsed
path component of the URL. urlparse does not raise on string input, so the
defensive except branch returning None is unreachable and has no image here. -/
def extract_slug_from_url (path : String) : Option String :=
  let path_parts := splitSlash (pyStrip '/' path.toList)
  if 2 ≤ path_parts.length &&
      (path_parts.head? == some "market".toList
        || path_parts.head? == some "event".toList) then
    path_parts.getLast?.map String.mk
  else
    none

/-- The value GammaClient.resolve_url produces: the Market or Event found. -/
inductive Resolved where
  | market (m : Market)
  | event (e : Event)

/-- GammaClient.resolve_url (client.py lines 227-247): extract a slug (raising
ValidationError on a falsy result), return the Market lookup's value when it
does not raise, otherwise return the Event lookup's value when it does not
raise, otherwise None. -/
def resolve_url (server : Request → TransportResult) (path : String) :
    Except PyError (Option Resolved) :=
  match extract_slug_from_url path with
  | none => .error (.gamma (.validationError ("Invalid Polymarket URL: " ++ path)))
  | some slug =>
    if slug == "" then
      .error (.gamma (.validationError ("Invalid Polymarket URL: " ++ path)))
    else
      match markets_get_by_slug server slug with
      | .ok m => .ok (m.map Resolved.market)
      | .error _ =>
        match events_get_by_slug server slug with
        | .ok e => .ok (some (Resolved.event e))
        | .error _ => .ok none

/-- Instrumentation: the list of requests resolve_url issues, in order. The
market-slug request is always issued once a slug is extracted; the event-slug
request is issued only when the market lookup raises. -/
def resolve_url_requests (server : Request → TransportResult) (path : String) :
    List Request :=
  match extract_slug_from_url path with
  | none => []
  | some slug =>
    if slug == "" then []
    else
      ⟨"GET", "/markets/slug/" ++ slug, []⟩ ::
        match markets_get_by_slug server slug with
        | .ok _ => []
        | .error _ => [⟨"GET", "/events/slug/" ++ slug, []⟩]

/-- AsyncGammaClient._request (client.py lines 410-427). The non-blocking
variant suspends at the network boundary; its decoding of the transport
outcome is embedded as a pure function of that outcome, like the blocking
variant's. -/
def async_client_request (endpoint : String) (t : TransportResult) :
    Except GammaError JsonVal :=
  match t with
  | .failure msg => .error (.apiError ("Unexpected Error: " ++ msg) none none)
  | .response r =>
    if r.status == 404 then
      .error (.notFoundError ("Resource not found: " ++ endpoint) 404)
    else if 200 ≤ r.status ∧ r.status < 300 then
      if hasSub "application/json".toList r.contentType.toList then
        match r.jsonBody with
        | some v => .ok v
        | none => .error (.apiError "Unexpected Error: invalid JSON body" none none)
      else
        .ok (.str (pyStripStr '"' r.text))
    else
      .error (.apiError ("API Error: " ++ toString r.status) (some r.status) (some r.text))

/-- AsyncSportsClient.list_teams. -/
def async_sports_list_teams (server : Request → TransportResult)
    (params : List (String × String)) : Except PyError (List Team) :=
  match async_client_request "/teams" (server ⟨"GET", "/teams", params⟩) with
  | .error e => .error (.gamma e)
  | .ok data => decodeEach Team.decode data

/-- AsyncSportsClient.get_metadata. -/
def async_sports_get_metadata (server : Request → TransportResult) :
    Except PyError (List SportMetadata) :=
  match async_client_request "/sports" (server ⟨"GET", "/sports", []⟩) with
  | .error e => .error (.gamma e)
  | .ok data => decodeEach SportMetadata.decode data

/-- AsyncSportsClient.get_market_types (client.py lines 278-280). -/
def async_sports_get_market_types (server : Request → TransportResult) :
    Except PyError JsonVal :=
  match async_client_request "/sports/market-types"
      (server ⟨"GET", "/sports/market-types", []⟩) with
  | .error e => .error (.gamma e)
  | .ok data => pyDictGet data "marketTypes" (.arr [])

/-- AsyncTagsClient.list. -/
def async_tags_list (server : Request → TransportResult)
    (params : List (String × String)) : Except PyError (List Tag) :=
  match async_client_request "/tags" (server ⟨"GET", "/tags", params⟩) with
  | .error e => .error (.gamma e)
  | .ok data => decodeEach Tag.decode data

/-- AsyncTagsClient.get_by_id. -/
def async_tags_get_by_id (server : Request → TransportResult) (tag_id : String) :
    Except PyError Tag :=
  match async_client_request ("/tags/" ++ tag_id)
      (server ⟨"GET", "/tags/" ++ tag_id, []⟩) with
  | .error e => .error (.gamma e)
  | .ok data => Tag.decode data

/-- AsyncTagsClient.get_by_slug. -/
def async_tags_get_by_slug (server : Request → TransportResult) (slug : String) :
    Except PyError Tag :=
  match async_client_request ("/tags/slug/" ++ slug)
      (server ⟨"GET", "/tags/slug/" ++ slug, []⟩) with
  | .error e => .error (.gamma e)
  | .ok data => Tag.decode data

/-- AsyncTagsClient.get_related_by_id. -/
def async_tags_get_related_by_id (server : Request → TransportResult)
    (tag_id : String) : Except PyError JsonVal :=
  match async_client_request ("/tags-related-tag-id/" ++ tag_id)
      (server ⟨"GET", "/tags-related-tag-id/" ++ tag_id, []⟩) with
  | .error e => .error (.gamma e)
  | .ok data => .ok data

/-- AsyncTagsClient.get_related_by_slug. -/
def async_tags_get_related_by_slug (server : Request → TransportResult)
    (slug : String) : Except PyError JsonVal :=
  match async_client_request ("/tags-related-tag-slug/" ++ slug)
      (server ⟨"GET", "/tags-related-tag-slug/" ++ slug, []⟩) with
  | .error e => .error (.gamma e)
  | .ok data => .ok data

/-- AsyncTagsClient.get_tags_related_to_id. -/
def async_tags_get_tags_related_to_id (server : Request → TransportResult)
    (tag_id : String) : Except PyError (List Tag) :=
  match async_client_request ("/tags/" ++ tag_id ++ "/related")
      (server ⟨"GET", "/tags/" ++ tag_id ++ "/related", []⟩) with
  | .error e => .error (.gamma e)
  | .ok data => decodeEach Tag.decode data

/-- AsyncTagsClient.get_tags_related_to_slug. -/
def async_tags_get_tags_related_to_slug (server : Request → TransportResult)
    (slug : String) : Except PyError (List Tag) :=
  match async_client_request ("/tags/slug/" ++ slug ++ "/related")
      (server ⟨"GET", "/tags/slug/" ++ slug ++ "/related", []⟩) with
  | .error e => .error (.gamma e)
  | .ok data => decodeEach Tag.decode data

/-- AsyncEventsClient.list. -/
def async_events_list (server : Request → TransportResult)
    (params : List (String × String)) : Except PyError (List Event) :=
  match async_client_request "/events" (server ⟨"GET", "/events", params⟩) with
  | .error e => .error (.gamma e)
  | .ok data => decodeEach Event.decode data

/-- AsyncEventsClient.get_by_id. -/
def async_events_get_by_id (server : Request → TransportResult)
    (event_id : String) : Except PyError Event :=
  match async_client_request ("/events/" ++ event_id)
      (server ⟨"GET", "/events/" ++ event_id, []⟩) with
  | .error e => .error (.gamma e)
  | .ok data => Event.decode data

/-- AsyncEventsClient.get_tags. -/
def async_events_get_tags (server : Request → TransportResult)
    (event_id : String) : Except PyError (List Tag) :=
  match async_client_request ("/events/" ++ event_id ++ "/tags")
      (server ⟨"GET", "/events/" ++ event_id ++ "/tags", []⟩) with
  | .error e => .error (.gamma e)
  | .ok data => decodeEach Tag.decode data

/-- AsyncEventsClient.get_by_slug (client.py lines 326-328). -/
def async_events_get_by_slug (server : Request → TransportResult)
    (slug : String) : Except PyError Event :=
  match async_client_request ("/events/slug/" ++ slug)
      (server ⟨"GET", "/events/slug/" ++ slug, []⟩) with
  | .error e => .error (.gamma e)
  | .ok data => Event.decode data

/-- AsyncMarketsClient.list. -/
def async_markets_list (server : Request → TransportResult)
    (params : List (String × String)) : Except PyError (List Market) :=
  match async_client_request "/markets" (server ⟨"GET", "/markets", params⟩) with
  | .error e => .error (.gamma e)
  | .ok data => decodeEach Market.decode data

/-- AsyncMarketsClient.get_by_id. -/
def async_markets_get_by_id (server : Request → TransportResult)
    (market_id : String) : Except PyError Market :=
  match async_client_request ("/markets/" ++ market_id)
      (server ⟨"GET", "/markets/" ++ market_id, []⟩) with
  | .error e => .error (.gamma e)
  | .ok data => Market.decode data

/-- AsyncMarketsClient.get_tags. -/
def async_markets_get_tags (server : Request → TransportResult)
    (market_id : String) : Except PyError (List Tag) :=
  match async_client_request ("/markets/" ++ market_id ++ "/tags")
      (server ⟨"GET", "/markets/" ++ market_id ++ "/tags", []⟩) with
  | .error e => .error (.gamma e)
  | .ok data => decodeEach Tag.decode data

/-- AsyncMarketsClient.get_by_slug (client.py lines 345-349). -/
def async_markets_get_by_slug (server : Request → TransportResult)
    (slug : String) : Except PyError (Option Market) :=
  match async_client_request ("/markets/slug/" ++ slug)
      (server ⟨"GET", "/markets/slug/" ++ slug, []⟩) with
  | .error e => .error (.gamma e)
  | .ok data => market_slug_decode data

/-- AsyncSeriesClient.list. -/
def async_series_list (server : Request → TransportResult)
    (params : List (String × String)) : Except PyError (List Series) :=
  match async_client_request "/series" (server ⟨"GET", "/series", params⟩) with
  | .error e => .error (.gamma e)
  | .ok data => decodeEach Series.decode data

/-- AsyncSeriesClient.get_by_id. -/
def async_series_get_by_id (server : Request → TransportResult)
    (series_id : String) : Except PyError Series :=
  match async_client_request ("/series/" ++ series_id)
      (server ⟨"GET", "/series/" ++ series_id, []⟩) with
  | .error e => .error (.gamma e)
  | .ok data => Series.decode data

/-- AsyncCommentsClient.list. -/
def async_comments_list (server : Request → TransportResult)
    (params : List (String × String)) : Except PyError (List Comment) :=
  match async_client_request "/comments" (server ⟨"GET", "/comments", params⟩) with
  | .error e => .error (.gamma e)
  | .ok data => decodeEach Comment.decode data

/-- AsyncCommentsClient.get_by_id. -/
def async_comments_get_by_id (server : Request → TransportResult)
    (comment_id : String) : Except PyError Comment :=
  match async_client_request ("/comments/" ++ comment_id)
      (server ⟨"GET", "/comments/" ++ comment_id, []⟩) with
  | .error e => .error (.gamma e)
  | .ok data => Comment.decode data

/-- AsyncCommentsClient.get_by_user. -/
def async_comments_get_by_user (server : Request → TransportResult)
    (address : String) : Except PyError (List Comment) :=
  match async_client_request ("/comments/user/" ++ address)
      (server ⟨"GET", "/comments/user/" ++ address, []⟩) with
  | .error e => .error (.gamma e)
  | .ok data => decodeEach Comment.decode data

/-- AsyncProfilesClient.get_by_address. -/
def async_profiles_get_by_address (server : Request → TransportResult)
    (address : String) : Except PyError Profile :=
  match async_client_request ("/profiles/" ++ address)
      (server ⟨"GET", "/profiles/" ++ address, []⟩) with
  | .error e => .error (.gamma e)
  | .ok data => Profile.decode data

/-- AsyncGammaClient.get_status (client.py lines 429-430). -/
def async_get_status (server : Request → TransportResult) :
    Except GammaError JsonVal :=
  async_client_request "/status" (server ⟨"GET", "/status", []⟩)

/-- AsyncGammaClient.search (client.py lines 432-434). -/
def async_search (server : Request → TransportResult) (query : String)
    (params : List (String × String)) : Except GammaError JsonVal :=
  async_client_request "/search" (server (search_request query params))

/-- AsyncGammaClient._extract_slug_from_url (client.py lines 458-466). -/
def async_extract_slug_from_url (path : String) : Option String :=
  let path_parts := splitSlash (pyStrip '/' path.toList)
  if 2 ≤ path_parts.length &&
      (path_parts.head? == some "market".toList
        || path_parts.head? == some "event".toList) then
    path_parts.getLast?.map String.mk
  else
    none

/-- AsyncGammaClient.resolve_url (client.py lines 436-456). -/
def async_resolve_url (server : Request → TransportResult) (path : String) :
    Except PyError (Option Resolved) :=
  match async_extract_slug_from_url path with
  | none => .error (.gamma (.validationError ("Invalid Polymarket URL: " ++ path)))
  | some slug =>
    if slug == "" then
      .error (.gamma (.validationError ("Invalid Polymarket URL: " ++ path)))
    else
      match async_markets_get_by_slug server slug with
      | .ok m => .ok (m.map Resolved.market)
      | .error _ =>
        match async_events_get_by_slug server slug with
        | .ok e => .ok (some (Resolved.event e))
        | .error _ => .ok none

/-! Concrete transport oracles used to evaluate the theorems below on
specific remote behaviors. -/

/-- A remote that answers every request with HTTP 200 and the given JSON
document. -/
def jsonServer (v : JsonVal) : Request → TransportResult :=
  fun _ => .response ⟨200, "application/json", "", some v⟩

/-- A remote whose market-slug endpoint for slug "s" answers with an empty
JSON array (a successful lookup with no match) and that answers every other
request with an empty JSON object. -/
def fallbackProbeServer : Request → TransportResult := fun r =>
  if r.endpoint == "/markets/slug/s" then
    .response ⟨200, "application/json", "[]", some (.arr [])⟩
  else
    .response ⟨200, "application/json", "", some (.obj [])⟩

/-- A remote whose market-slug endpoint for slug "s" answers with HTTP 500
and that answers every other request with an empty JSON object. -/
def errorThenEventServer : Request → TransportResult := fun r =>
  if r.endpoint == "/markets/slug/s" then
    .response ⟨500, "application/json", "err", none⟩
  else
    .response ⟨200, "application/json", "", some (.obj [])⟩

/-! Supporting lemmas about the keyword-mapping helpers. -/

lemma lookupKey_pySetItem_same (ps : List (String × String)) (k v : String) :
    lookupKey (pySetItem ps k v) k = some v := by
  induction ps with
  | nil => simp [pySetItem, lookupKey, List.find?]
  | cons p rest ih =>
    simp only [pySetItem]
    by_cases hp : (p.fst == k) = true
    · rw [if_pos hp]
      simp [lookupKey, List.find?]
    · rw [if_neg hp]
      simp only [lookupKey, List.find?, hp]
      exact ih

lemma lookupKey_pySetItem_ne (ps : List (String × String)) (k v k' : String)
    (h : k' ≠ k) : lookupKey (pySetItem ps k v) k' = lookupKey ps k' := by
  have hkk : (k == k') = false := beq_eq_false_iff_ne.mpr (Ne.symm h)
  induction ps with
  | nil => simp [pySetItem, lookupKey, List.find?, hkk]
  | cons p rest ih =>
    simp only [pySetItem]
    by_cases hp : (p.fst == k) = true
    · rw [if_pos hp]
      have hpk : p.fst = k := beq_iff_eq.mp hp
      simp [lookupKey, List.find?, hkk, hpk]
    · rw [if_neg hp]
      by_cases hp' : (p.fst == k') = true
      · simp [lookupKey, List.find?, hp']
      · simp only [lookupKey, List.find?, hp']
        exact ih

/-! Supporting lemmas about the path-splitting helpers. -/

lemma head?_dropWhile_not {p : Char → Bool} {l : List Char} {a : Char}
    (h : (l.dropWhile p).head? = some a) : p a = false := by
  induction l with
  | nil => simp [List.dropWhile] at h
  | cons b t ih =>
    simp only [List.dropWhile] at h
    by_cases hb : p b = true
    · rw [hb] at h
      exact ih h
    · rw [Bool.not_eq_true] at hb
      rw [hb] at h
      simp only [List.head?] at h
      cases h
      exact hb

lemma splitSlash_ne_nil (cs : List Char) : splitSlash cs ≠ [] := by
  cases cs with
  | nil => simp [splitSlash]
  | cons c rest =>
    simp only [splitSlash]
    split
    · simp
    · split <;> simp

lemma splitSlash_eq_singleton : ∀ cs l : List Char, splitSlash cs = [l] → l = cs := by
  intro cs
  induction cs with
  | nil =>
    intro l h
    simp [splitSlash] at h
    exact h
  | cons c rest ih =>
    intro l h
    simp only [splitSlash] at h
    by_cases hc : (c == '/') = true
    · rw [if_pos hc] at h
      cases hr : splitSlash rest with
      | nil => exact absurd hr (splitSlash_ne_nil rest)
      | cons a b =>
        rw [hr] at h
        simp at h
    · rw [if_neg hc] at h
      cases hr : splitSlash rest with
      | nil => exact absurd hr (splitSlash_ne_nil rest)
      | cons sh st =>
        rw [hr] at h
        have h2 : (c :: sh) :: st = [l] := h
        cases st with
        | nil =>
          cases h2
          have := ih sh hr
          rw [this]
        | cons s1 st2 => simp at h2

lemma splitSlash_getLast_ne_nil :
    ∀ cs l : List Char, cs.getLast? ≠ some '/' →
      2 ≤ (splitSlash cs).length → (splitSlash cs).getLast? = some l → l ≠ [] := by
  intro cs
  induction cs with
  | nil =>
    intro l _ hlen _
    simp [splitSlash] at hlen
  | cons c rest ih =>
    intro l hne hlen hlast
    simp only [splitSlash] at hlen hlast
    by_cases hc : (c == '/') = true
    · rw [if_pos hc] at hlen hlast
      have hceq : c = '/' := beq_iff_eq.mp hc
      cases rest with
      | nil =>
        exact absurd (by rw [hceq]; rfl) hne
      | cons r0 rrest =>
        have hne2 : (r0 :: rrest).getLast? ≠ some '/' := by
          intro hcon
          apply hne
          rw [List.getLast?_cons_cons]
          exact hcon
        cases hr : splitSlash (r0 :: rrest) with
        | nil => exact absurd hr (splitSlash_ne_nil _)
        | cons sh st =>
          rw [hr] at hlast
          cases st with
          | nil =>
            have hsh : sh = r0 :: rrest := splitSlash_eq_singleton _ sh hr
            have hls : sh = l := by simpa using hlast
            rw [← hls, hsh]
            simp
          | cons s1 st2 =>
            refine ih l hne2 ?_ ?_
            · rw [hr]; simp
            · rw [hr, List.getLast?_cons_cons]
              rw [List.getLast?_cons_cons] at hlast
              exact hlast
    · rw [if_neg hc] at hlen hlast
      cases hr : splitSlash rest with
      | nil => exact absurd hr (splitSlash_ne_nil _)
      | cons sh st =>
        rw [hr] at hlen hlast
        have hlen2 : 2 ≤ ((c :: sh) :: st).length := hlen
        have hlast2 : ((c :: sh) :: st).getLast? = some l := hlast
        cases st with
        | nil => simp at hlen2
        | cons s1 st2 =>
          have hrestne : rest ≠ [] := by
            intro hrest
            rw [hrest] at hr
            simp [splitSlash] at hr
          obtain ⟨r0, rrest, hrest⟩ := List.exists_cons_of_ne_nil hrestne
          subst hrest
          have hne2 : (r0 :: rrest).getLast? ≠ some '/' := by
            intro hcon
            apply hne
            rw [List.getLast?_cons_cons]
            exact hcon
          refine ih l hne2 ?_ ?_
          · rw [hr]; simp
          · rw [hr, List.getLast?_cons_cons]
            rw [List.getLast?_cons_cons] at hlast2
            exact hlast2

lemma pyStrip_getLast_ne (c : Char) (s : List Char) :
    (pyStrip c s).getLast? ≠ some c := by
  intro h
  have h2 : (((s.dropWhile (· == c)).reverse.dropWhile (· == c)).reverse).getLast? = some c := h
  rw [List.getLast?_reverse] at h2
  have := head?_dropWhile_not h2
  simp at this

/-- Reduction of `client_request` on an HTTP response, stated once so the
theorems below can rewrite with it. -/
lemma client_request_response (endpoint : String) (r : HttpResponse) :
    client_request endpoint (.response r) =
      if r.status == 404 then
        .error (.notFoundError ("Resource not found: " ++ endpoint) 404)
      else if 200 ≤ r.status ∧ r.status < 300 then
        if hasSub "application/json".toList r.contentType.toList then
          match r.jsonBody with
          | some v => .ok v
          | none => .error (.apiError "Unexpected Error: invalid JSON body" none none)
        else
          .ok (.str (pyStripStr '"' r.text))
      else
        .error (.apiError ("API Error: " ++ toString r.status) (some r.status) (some r.text)) := rfl

/-- Reduction of `client_request` on a transport failure. -/
lemma client_request_failure (endpoint msg : String) :
    client_request endpoint (.failure msg) =
      .error (.apiError ("Unexpected Error: " ++ msg) none none) := rfl

/-! Claim theorems. -/

/-- C4: for every request through the transport whose HTTP response status is
404, the transport raises NotFoundError carrying status 404, and this error
is distinguishable from the generic APIError raised for other failures. -/
theorem request_404_raises_not_found (endpoint : String) (r : HttpResponse)
    (h : r.status = 404) :
    client_request endpoint (.response r) =
      .error (.notFoundError ("Resource not found: " ++ endpoint) 404)
    ∧ ∀ m st b, client_request endpoint (.response r) ≠ .error (.apiError m st b) := by
  have h1 : client_request endpoint (.response r) =
      .error (.notFoundError ("Resource not found: " ++ endpoint) 404) := by
    rw [client_request_response, if_pos (by simp [h])]
  refine ⟨h1, fun m st b hcon => ?_⟩
  rw [h1] at hcon
  simp at hcon

/-- Closed witness for C4 at a concrete 404 response. -/
theorem request_404_raises_not_found_witness :
    client_request "/markets/9" (.response ⟨404, "application/json", "", none⟩) =
      .error (.notFoundError "Resource not found: /markets/9" 404) := by
  exact (request_404_raises_not_found "/markets/9" ⟨404, "application/json", "", none⟩ rfl).1

/-- C5: a non-2xx response other than 404 raises APIError carrying the
response status and raw body; a transport-level failure, and a malformed body
on a successful JSON response, are wrapped into a generic APIError; no
failure is silently dropped: a value is only returned for a 2xx response. -/
theorem request_wraps_failures (endpoint : String) :
    (∀ r : HttpResponse, r.status ≠ 404 → ¬(200 ≤ r.status ∧ r.status < 300) →
      client_request endpoint (.response r) =
        .error (.apiError ("API Error: " ++ toString r.status) (some r.status) (some r.text)))
    ∧ (∀ msg, client_request endpoint (.failure msg) =
        .error (.apiError ("Unexpected Error: " ++ msg) none none))
    ∧ (∀ r : HttpResponse, 200 ≤ r.status → r.status < 300 →
        hasSub "application/json".toList r.contentType.toList = true →
        r.jsonBody = none →
        client_request endpoint (.response r) =
          .error (.apiError "Unexpected Error: invalid JSON body" none none))
    ∧ (∀ (t : TransportResult) (v : JsonVal), client_request endpoint t = .ok v →
        ∃ r : HttpResponse, t = .response r ∧ 200 ≤ r.status ∧ r.status < 300) := by
  refine ⟨?_, ?_, ?_, ?_⟩
  · intro r h404 h2xx
    rw [client_request_response, if_neg (by simp [h404]), if_neg h2xx]
  · intro msg
    rfl
  · intro r hlo hhi hct hbody
    have h404 : (r.status == 404) = false := by
      refine beq_eq_false_iff_ne.mpr ?_
      omega
    rw [client_request_response, if_neg (by simp [h404]), if_pos ⟨hlo, hhi⟩, if_pos hct, hbody]
  · intro t v hok
    cases t with
    | failure msg =>
      rw [client_request_failure] at hok
      simp at hok
    | response r =>
      refine ⟨r, rfl, ?_⟩
      by_contra hcon
      rw [client_request_response, if_neg hcon] at hok
      by_cases h404 : (r.status == 404) = true
      · rw [if_pos h404] at hok
        simp at hok
      · rw [if_neg h404] at hok
        simp at hok

/-- Closed witness for C5 at a concrete 500 response, a concrete transport
failure, and a concrete malformed JSON body. -/
theorem request_wraps_failures_witness :
    client_request "/markets" (.response ⟨500, "text/html", "oops", none⟩) =
      .error (.apiError "API Error: 500" (some 500) (some "oops"))
    ∧ client_request "/markets" (.failure "dns") =
      .error (.apiError "Unexpected Error: dns" none none)
    ∧ client_request "/markets" (.response ⟨200, "application/json", "x", none⟩) =
      .error (.apiError "Unexpected Error: invalid JSON body" none none) := by
  refine ⟨?_, ?_, ?_⟩
  · exact (request_wraps_failures "/markets").1 ⟨500, "text/html", "oops", none⟩
      (by decide) (by decide)
  · exact (request_wraps_failures "/markets").2.1 "dns"
  · exact (request_wraps_failures "/markets").2.2.1 ⟨200, "application/json", "x", none⟩
      (by decide) (by decide) (by decide) rfl

/-- C6: on a successful (2xx) response, a JSON content-type returns the
parsed JSON value, and any other content-type returns the raw text with its
surrounding quote characters stripped. -/
theorem request_success_decoding (endpoint : String) (r : HttpResponse)
    (hlo : 200 ≤ r.status) (hhi : r.status < 300) :
    (∀ v, hasSub "application/json".toList r.contentType.toList = true →
      r.jsonBody = some v → client_request endpoint (.response r) = .ok v)
    ∧ (hasSub "application/json".toList r.contentType.toList = false →
      client_request endpoint (.response r) = .ok (.str (pyStripStr '"' r.text))) := by
  have h404 : (r.status == 404) = false := by
    refine beq_eq_false_iff_ne.mpr ?_
    omega
  constructor
  · intro v hct hbody
    rw [client_request_response, if_neg (by simp [h404]), if_pos ⟨hlo, hhi⟩, if_pos hct, hbody]
  · intro hct
    rw [client_request_response, if_neg (by simp [h404]), if_pos ⟨hlo, hhi⟩, if_neg (by simp only [hct]; simp)]

/-- Closed witness for C6: a JSON response returns its parsed body, and the
bare quoted text body of the /status endpoint is returned without quotes. -/
theorem request_success_decoding_witness :
    client_request "/markets" (.response ⟨200, "application/json", "", some (.arr [])⟩) =
      .ok (.arr [])
    ∧ client_request "/status" (.response ⟨200, "text/plain", "\"OK\"", none⟩) =
      .ok (.str "OK") := by
  constructor
  · exact (request_success_decoding "/markets" ⟨200, "application/json", "", some (.arr [])⟩
      (by decide) (by decide)).1 (.arr []) (by decide) rfl
  · exact ((request_success_decoding "/status" ⟨200, "text/plain", "\"OK\"", none⟩
      (by decide) (by decide)).2 (by decide)).trans (by rfl)

/-- C2: for every decoded remote response to the Markets get_by_slug
endpoint: a non-empty sequence yields its first element decoded as a Market,
an empty sequence yields an absent result, and a bare object is decoded
directly as a Market. -/
theorem markets_get_by_slug_shapes (server : Request → TransportResult) (slug : String) :
    (∀ x l, client_request ("/markets/slug/" ++ slug)
          (server ⟨"GET", "/markets/slug/" ++ slug, []⟩) = .ok (.arr (x :: l)) →
        markets_get_by_slug server slug = (Market.decode x).map some)
    ∧ (client_request ("/markets/slug/" ++ slug)
          (server ⟨"GET", "/markets/slug/" ++ slug, []⟩) = .ok (.arr []) →
        markets_get_by_slug server slug = .ok none)
    ∧ (∀ fs, client_request ("/markets/slug/" ++ slug)
          (server ⟨"GET", "/markets/slug/" ++ slug, []⟩) = .ok (.obj fs) →
        markets_get_by_slug server slug = .ok (some ⟨fs⟩)) := by
  refine ⟨?_, ?_, ?_⟩
  · intro x l h
    unfold markets_get_by_slug
    rw [h]
    rfl
  · intro h
    unfold markets_get_by_slug
    rw [h]
    rfl
  · intro fs h
    unfold markets_get_by_slug
    rw [h]
    rfl

/-- Closed witness for C2 at concrete empty-array, one-element-array, and
bare-object responses. -/
theorem markets_get_by_slug_shapes_witness :
    markets_get_by_slug (jsonServer (.arr [])) "s" = .ok none
    ∧ markets_get_by_slug (jsonServer (.arr [.obj [("slug", .str "s")]])) "s" =
        .ok (some ⟨[("slug", .str "s")]⟩)
    ∧ markets_get_by_slug (jsonServer (.obj [("slug", .str "s")])) "s" =
        .ok (some ⟨[("slug", .str "s")]⟩) := by
  refine ⟨?_, ?_, ?_⟩
  · exact (markets_get_by_slug_shapes (jsonServer (.arr [])) "s").2.1 rfl
  · exact ((markets_get_by_slug_shapes (jsonServer (.arr [.obj [("slug", .str "s")]])) "s").1
      (.obj [("slug", .str "s")]) [] rfl).trans (by rfl)
  · exact (markets_get_by_slug_shapes (jsonServer (.obj [("slug", .str "s")])) "s").2.2
      [("slug", .str "s")] rfl

/-- C3: for every URL whose path does not yield an extractable slug (its
stripped path has fewer than two segments, or a first segment other than
"market" or "event"), resolve_url fails with ValidationError and issues no
network request. -/
theorem resolve_url_invalid_url (server : Request → TransportResult) (path : String)
    (h : (splitSlash (pyStrip '/' path.toList)).length < 2 ∨
         ((splitSlash (pyStrip '/' path.toList)).head? ≠ some "market".toList ∧
          (splitSlash (pyStrip '/' path.toList)).head? ≠ some "event".toList)) :
    resolve_url server path =
      .error (.gamma (.validationError ("Invalid Polymarket URL: " ++ path)))
    ∧ resolve_url_requests server path = [] := by
  have hex : extract_slug_from_url path = none := by
    unfold extract_slug_from_url
    rw [if_neg]
    intro hcond
    rw [Bool.and_eq_true, Bool.or_eq_true] at hcond
    obtain ⟨h1, h2⟩ := hcond
    have hlen : 2 ≤ (splitSlash (pyStrip '/' path.toList)).length := of_decide_eq_true h1
    cases h with
    | inl hl => omega
    | inr hr =>
      cases h2 with
      | inl hm => exact hr.1 (beq_iff_eq.mp hm)
      | inr he => exact hr.2 (beq_iff_eq.mp he)
  constructor
  · unfold resolve_url
    rw [hex]
  · unfold resolve_url_requests
    rw [hex]

/-- Closed witness for C3 at the single-segment URL path of the spec's
example. -/
theorem resolve_url_invalid_url_witness :
    resolve_url (jsonServer (.obj [])) "/invalid" =
      .error (.gamma (.validationError "Invalid Polymarket URL: /invalid"))
    ∧ resolve_url_requests (jsonServer (.obj [])) "/invalid" = [] := by
  exact resolve_url_invalid_url (jsonServer (.obj [])) "/invalid" (Or.inl (by decide))

/-- C10: for every URL path that yields a slug (stripped path split on
slashes has at least two segments and first segment "market" or "event"),
the extracted slug is the final path segment, it is never the empty string,
and the first lookup request resolve_url issues uses exactly that slug. -/
theorem extract_slug_is_last_segment (path : String)
    (hlen : 2 ≤ (splitSlash (pyStrip '/' path.toList)).length)
    (hhead : (splitSlash (pyStrip '/' path.toList)).head? = some "market".toList ∨
             (splitSlash (pyStrip '/' path.toList)).head? = some "event".toList) :
    extract_slug_from_url path =
      (splitSlash (pyStrip '/' path.toList)).getLast?.map String.mk
    ∧ extract_slug_from_url path ≠ some ""
    ∧ ∀ server : Request → TransportResult,
        (resolve_url_requests server path).head? =
          (extract_slug_from_url path).map
            (fun slug => ⟨"GET", "/markets/slug/" ++ slug, []⟩) := by
  have hex : extract_slug_from_url path =
      (splitSlash (pyStrip '/' path.toList)).getLast?.map String.mk := by
    unfold extract_slug_from_url
    rw [if_pos]
    rw [Bool.and_eq_true, Bool.or_eq_true]
    refine ⟨decide_eq_true hlen, ?_⟩
    cases hhead with
    | inl h => exact Or.inl (beq_iff_eq.mpr h)
    | inr h => exact Or.inr (beq_iff_eq.mpr h)
  have hnil : (splitSlash (pyStrip '/' path.toList)) ≠ [] := splitSlash_ne_nil _
  obtain ⟨l, hl⟩ : ∃ l, (splitSlash (pyStrip '/' path.toList)).getLast? = some l := by
    cases hgl : (splitSlash (pyStrip '/' path.toList)).getLast? with
    | none => exact absurd (List.getLast?_eq_none_iff.mp hgl) hnil
    | some l => exact ⟨l, rfl⟩
  have hlne : l ≠ [] :=
    splitSlash_getLast_ne_nil _ l (pyStrip_getLast_ne '/' path.toList) hlen hl
  have hsne : String.mk l ≠ "" := by
    intro hcon
    apply hlne
    have := congrArg String.data hcon
    simpa using this
  refine ⟨hex, ?_, ?_⟩
  · rw [hex, hl]
    simp only [Option.map_some']
    intro hcon
    apply hsne
    simpa using hcon
  · intro server
    unfold resolve_url_requests
    rw [hex, hl]
    have hbeq : (String.mk l == "") = false := beq_eq_false_iff_ne.mpr hsne
    simp [hbeq]

/-- Closed witness for C10: the path /market/a/b yields the final segment "b"
(not the second segment), and the first lookup request uses it. -/
theorem extract_slug_is_last_segment_witness :
    extract_slug_from_url "/market/a/b" = some "b"
    ∧ extract_slug_from_url "/market/a/b" ≠ some ""
    ∧ (resolve_url_requests (jsonServer (.obj [])) "/market/a/b").head? =
        some ⟨"GET", "/markets/slug/b", []⟩ := by
  have h := extract_slug_is_last_segment "/market/a/b" (by decide) (Or.inl (by rfl))
  refine ⟨by rfl, h.2.1, ?_⟩
  rw [h.2.2 (jsonServer (.obj []))]
  rfl

/-- C8: for every decoded response object to the sports market-types
endpoint, get_market_types returns the value stored under the field
"marketTypes", and the empty sequence when that field is absent. -/
theorem get_market_types_field (server : Request → TransportResult)
    (fs : List (String × JsonVal))
    (hresp : client_request "/sports/market-types"
        (server ⟨"GET", "/sports/market-types", []⟩) = .ok (.obj fs)) :
    (∀ v, jsonField fs "marketTypes" = some v →
      sports_get_market_types server = .ok v)
    ∧ (jsonField fs "marketTypes" = none →
      sports_get_market_types server = .ok (.arr [])) := by
  constructor
  · intro v hv
    unfold sports_get_market_types
    rw [hresp]
    show pyDictGet (.obj fs) "marketTypes" (.arr []) = .ok v
    simp [pyDictGet, hv]
  · intro hnone
    unfold sports_get_market_types
    rw [hresp]
    show pyDictGet (.obj fs) "marketTypes" (.arr []) = .ok (.arr [])
    simp [pyDictGet, hnone]

/-- Closed witness for C8: a response holding a marketTypes sequence returns
it, and the empty response object returns the empty sequence. -/
theorem get_market_types_field_witness :
    sports_get_market_types (jsonServer (.obj [("marketTypes", .arr [.str "a", .str "b"])])) =
      .ok (.arr [.str "a", .str "b"])
    ∧ sports_get_market_types (jsonServer (.obj [])) = .ok (.arr []) := by
  constructor
  · exact (get_market_types_field (jsonServer (.obj [("marketTypes", .arr [.str "a", .str "b"])]))
      [("marketTypes", .arr [.str "a", .str "b"])] rfl).1 (.arr [.str "a", .str "b"]) rfl
  · exact (get_market_types_field (jsonServer (.obj [])) [] rfl).2 rfl

/-- C7: search issues a single GET request to /search whose query parameters
are the caller's filters with the query text assigned under the fixed key
"q" (other keys unchanged), and returns the decoded response of exactly that
request unmodified. -/
theorem search_merges_query (server : Request → TransportResult) (query : String)
    (params : List (String × String)) :
    (search_request query params).method = "GET"
    ∧ (search_request query params).endpoint = "/search"
    ∧ lookupKey (search_request query params).params "q" = some query
    ∧ (∀ k, k ≠ "q" →
        lookupKey (search_request query params).params k = lookupKey params k)
    ∧ search server query params =
        client_request "/search" (server (search_request query params)) := by
  refine ⟨rfl, rfl, ?_, ?_, rfl⟩
  · exact lookupKey_pySetItem_same params "q" query
  · intro k hk
    exact lookupKey_pySetItem_ne params "q" query k hk

/-- Closed witness for C7 at the spec's example query. -/
theorem search_merges_query_witness :
    lookupKey (search_request "Politics" []).params "q" = some "Politics"
    ∧ search (jsonServer (.obj [])) "Politics" [] = .ok (.obj []) := by
  have h := search_merges_query (jsonServer (.obj [])) "Politics" []
  refine ⟨h.2.2.1, ?_⟩
  rw [h.2.2.2.2]
  rfl

/-- C9: the blocking and non-blocking client variants have identical
behavior: the transport request handling, every sub-client method, and the
get_status, search, resolve_url and slug-extraction operations are equal as
functions of the transport oracle and their inputs. -/
theorem sync_async_equiv :
    client_request = async_client_request
    ∧ sports_list_teams = async_sports_list_teams
    ∧ sports_get_metadata = async_sports_get_metadata
    ∧ sports_get_market_types = async_sports_get_market_types
    ∧ tags_list = async_tags_list
    ∧ tags_get_by_id = async_tags_get_by_id
    ∧ tags_get_by_slug = async_tags_get_by_slug
    ∧ tags_get_related_by_id = async_tags_get_related_by_id
    ∧ tags_get_related_by_slug = async_tags_get_related_by_slug
    ∧ tags_get_tags_related_to_id = async_tags_get_tags_related_to_id
    ∧ tags_get_tags_related_to_slug = async_tags_get_tags_related_to_slug
    ∧ events_list = async_events_list
    ∧ events_get_by_id = async_events_get_by_id
    ∧ events_get_tags = async_events_get_tags
    ∧ events_get_by_slug = async_events_get_by_slug
    ∧ markets_list = async_markets_list
    ∧ markets_get_by_id = async_markets_get_by_id
    ∧ markets_get_tags = async_markets_get_tags
    ∧ markets_get_by_slug = async_markets_get_by_slug
    ∧ series_list = async_series_list
    ∧ series_get_by_id = async_series_get_by_id
    ∧ comments_list = async_comments_list
    ∧ comments_get_by_id = async_comments_get_by_id
    ∧ comments_get_by_user = async_comments_get_by_user
    ∧ profiles_get_by_address = async_profiles_get_by_address
    ∧ get_status = async_get_status
    ∧ search = async_search
    ∧ extract_slug_from_url = async_extract_slug_from_url
    ∧ resolve_url = async_resolve_url := by
  exact ⟨rfl, rfl, rfl, rfl, rfl, rfl, rfl, rfl, rfl, rfl, rfl, rfl, rfl, rfl, rfl,
    rfl, rfl, rfl, rfl, rfl, rfl, rfl, rfl, rfl, rfl, rfl, rfl, rfl, rfl⟩

/-- C1 counterexample: against a remote whose market-slug lookup succeeds
with an empty sequence (so get_by_slug returns an absent Market without
raising) and whose event-slug lookup would succeed, resolve_url returns
absent after issuing only the market request: the Event lookup is never
attempted and neither lookup failed, refuting "returns absent only if both
lookups fail". -/
theorem resolve_url_absent_without_both_failing :
    resolve_url fallbackProbeServer "/market/a/s" = .ok none
    ∧ markets_get_by_slug fallbackProbeServer "s" = .ok none
    ∧ events_get_by_slug fallbackProbeServer "s" = .ok ⟨[]⟩
    ∧ resolve_url_requests fallbackProbeServer "/market/a/s" =
        [⟨"GET", "/markets/slug/s", []⟩] := by
  exact ⟨rfl, rfl, rfl, rfl⟩

/-- C1 (amended): for every URL from which a slug is extractable, resolve_url
attempts the Market lookup by that slug first and never raises from either
lookup step; when the Market lookup raises, it silently attempts the Event
lookup with the same slug, returning its value on success and absent when it
too raises; but when the Market lookup succeeds, resolve_url returns its
(possibly absent) value directly, without attempting the Event lookup — so an
absent result can also arise from a successful empty-sequence Market
response, not only from both lookups failing. -/
theorem resolve_url_policy (server : Request → TransportResult) (path slug : String)
    (hslug : extract_slug_from_url path = some slug) (hne : slug ≠ "") :
    (∃ v, resolve_url server path = .ok v)
    ∧ (resolve_url_requests server path).head? =
        some ⟨"GET", "/markets/slug/" ++ slug, []⟩
    ∧ (∀ e, markets_get_by_slug server slug = .error e →
        resolve_url_requests server path =
          [⟨"GET", "/markets/slug/" ++ slug, []⟩, ⟨"GET", "/events/slug/" ++ slug, []⟩]
        ∧ (∀ ev, events_get_by_slug server slug = .ok ev →
            resolve_url server path = .ok (some (.event ev)))
        ∧ (∀ e2, events_get_by_slug server slug = .error e2 →
            resolve_url server path = .ok none))
    ∧ (∀ m, markets_get_by_slug server slug = .ok m →
        resolve_url server path = .ok (m.map Resolved.market)
        ∧ resolve_url_requests server path = [⟨"GET", "/markets/slug/" ++ slug, []⟩]) := by
  have hbeq : (slug == "") = false := beq_eq_false_iff_ne.mpr hne
  refine ⟨?_, ?_, ?_, ?_⟩
  · unfold resolve_url
    rw [hslug]
    simp only [hbeq]
    cases hm : markets_get_by_slug server slug with
    | ok m => exact ⟨m.map Resolved.market, by simp⟩
    | error e =>
      cases he : events_get_by_slug server slug with
      | ok ev => exact ⟨some (.event ev), by simp⟩
      | error e2 => exact ⟨none, by simp⟩
  · unfold resolve_url_requests
    rw [hslug]
    simp only [hbeq]
    cases hm : markets_get_by_slug server slug <;> simp
  · intro e hm
    unfold resolve_url resolve_url_requests
    rw [hslug]
    simp only [hbeq]
    rw [hm]
    cases he : events_get_by_slug server slug with
    | ok ev =>
      refine ⟨by simp, fun ev2 hev2 => ?_, fun e2 he2 => ?_⟩
      · cases hev2
        simp
      · simp at he2
    | error e2 =>
      refine ⟨by simp, fun ev2 hev2 => ?_, fun e3 he3 => ?_⟩
      · simp at hev2
      · simp
  · intro m hm
    unfold resolve_url resolve_url_requests
    rw [hslug]
    simp only [hbeq]
    rw [hm]
    exact ⟨by simp, by simp⟩

/-- Closed witness for the amended C1: against a remote whose market-slug
lookup fails with HTTP 500 and whose event-slug lookup succeeds, resolve_url
silently falls back, issues both requests in order and returns the Event. -/
theorem resolve_url_policy_witness :
    resolve_url errorThenEventServer "/market/a/s" = .ok (some (.event ⟨[]⟩))
    ∧ resolve_url_requests errorThenEventServer "/market/a/s" =
        [⟨"GET", "/markets/slug/s", []⟩, ⟨"GET", "/events/slug/s", []⟩] := by
  have h := resolve_url_policy errorThenEventServer "/market/a/s" "s" rfl (by decide)
  have h3 := h.2.2.1
    (.gamma (.apiError "API Error: 500" (some 500) (some "err"))) rfl
  exact ⟨h3.2.1 ⟨[]⟩ rfl, h3.1⟩

end PG
